import Mathlib

/-!
Shallow embedding of the Orchestration / Policy / Execution core of the
trading-bot repository, together with theorems settling the frozen claims.

Conventions of the embedding:
* Go `float64` values are modelled as `ℚ` (exact arithmetic; the claims are
  about the algebraic structure of the computations, not IEEE rounding).
* Go `time.Time` / `time.Duration` are modelled as `Int` timestamps measured
  in seconds; `time.Now()` is passed in explicitly as a `now : Int` argument.
* Go functions returning `(T, error)` are modelled with `Option T`
  (`none` = the error case) when the claims only distinguish ok/failure.
* Go `map[string]interface{}` parameter bags are modelled as association
  lists `List (String × ℚ)`: every parameter the core reads is read with a
  `float64` type assertion, and a missing key or a non-float value both make
  the assertion fail, i.e. behave as `none` under `List.lookup`.
* Strings produced via `fmt.Sprintf` with numeric formatting are modelled by
  fixed descriptive strings: no claim depends on message text.
-/

namespace Mark

/-! ## Policy-engine data model (package `policy`, types file) -/

/-- Embeds `policy.CircuitBreaker`: a configured breaker rule. -/
structure CircuitBreaker where
  type : String
  threshold : ℚ
  action : String
deriving DecidableEq

/-- Embeds `policy.Policy`: the risk profile loaded from YAML. -/
structure Policy where
  profileName : String
  maxOrderUSDT : ℚ
  maxPositionUSDT : ℚ
  maxTotalExposure : ℚ
  maxDailyLossUSDT : ℚ
  tradesPerHour : Int
  slippageThreshold : ℚ
  circuitBreakers : List CircuitBreaker
deriving DecidableEq

/-- Embeds `policy.ActionRequest`: a proposed operation. `Parameters` is the
float-valued view of the Go parameter bag (see file header). -/
structure ActionRequest where
  type : String
  symbol : String
  params : List (String × ℚ)
deriving DecidableEq

/-- Embeds `policy.Violation`. -/
structure Violation where
  type : String
  limitName : String
  limitValue : ℚ
  attemptedValue : ℚ
  severity : String
  message : String
deriving DecidableEq

/-- Embeds `policy.RiskMetrics`. -/
structure RiskMetrics where
  totalExposureUSDT : ℚ
  dailyLossUSDT : ℚ
  dailyTradeCount : Nat
  currentDrawdown : ℚ
  volatilityPct : ℚ
deriving DecidableEq

/-- Embeds `policy.ValidationResult`. -/
structure ValidationResult where
  approved : Bool
  riskScore : ℚ
  violations : List Violation
  fallbackProfile : Option Policy
  checkedAt : Int
deriving DecidableEq

/-- Embeds `policy.CircuitBreakerEvent` (engine-side shape: Reason, Details,
PausedUntil). -/
structure CircuitBreakerEvent where
  reason : String
  details : String
  pausedUntil : Int
deriving DecidableEq

/-- Embeds `policy.Balance` (storage row used by `updateMetrics`). -/
structure Balance where
  symbol : String
  totalInvested : ℚ
  unrealizedPnL : ℚ
deriving DecidableEq

/-- Embeds `policy.Trade` (storage row used by `updateMetrics`). -/
structure Trade where
  symbol : String
  side : String
  amount : ℚ
  createdAt : Int
deriving DecidableEq

/-- Stub of the `policy.Storage` read side: the data the two reads used by
`updateMetrics` would return (`none` = the storage call errors). -/
structure StorageStub where
  balances : Option (List Balance)
  trades : Option (List Trade)

/-- Embeds `policy.Engine`: the policy plus its (mutable in Go) metrics field. -/
structure Engine where
  policy : Policy
  metrics : RiskMetrics
deriving DecidableEq

/-! ## Policy engine (part `policy/engine.go`) -/

/-- One hour, in seconds. -/
def oneHour : Int := 3600
/-- Twenty-four hours, in seconds. -/
def oneDay : Int := 86400
/-- Thirty minutes, in seconds. -/
def halfHour : Int := 1800

/-- Embeds `Engine.checkCircuitBreakers`, loop body: walk the configured rules in
order; the first rule whose metric is at or above its threshold yields an
event (drawdown → 1h pause, daily loss → 24h pause, volatility → 30m pause);
rules of unknown kind are skipped. -/
def checkBreakersList (m : RiskMetrics) (now : Int) :
    List CircuitBreaker → Option CircuitBreakerEvent
  | [] => none
  | cb :: rest =>
    if cb.type = "drawdown" then
      if cb.threshold ≤ m.currentDrawdown then
        some { reason := "drawdown at or above threshold", details := "",
               pausedUntil := now + oneHour }
      else checkBreakersList m now rest
    else if cb.type = "daily_loss" then
      if cb.threshold ≤ m.dailyLossUSDT then
        some { reason := "daily loss at or above threshold", details := "",
               pausedUntil := now + oneDay }
      else checkBreakersList m now rest
    else if cb.type = "volatility" then
      if cb.threshold ≤ m.volatilityPct then
        some { reason := "volatility at or above threshold", details := "",
               pausedUntil := now + halfHour }
      else checkBreakersList m now rest
    else checkBreakersList m now rest

/-- Embeds `Engine.checkCircuitBreakers`: pure check of current metrics against the
policy's breaker rules. -/
def checkCircuitBreakers (e : Engine) (now : Int) : Option CircuitBreakerEvent :=
  checkBreakersList e.metrics now e.policy.circuitBreakers

/-- The condition under which one configured breaker rule fires, read off the
branches of `checkBreakersList`. -/
def breakerTrips (m : RiskMetrics) (cb : CircuitBreaker) : Prop :=
  (cb.type = "drawdown" ∧ cb.threshold ≤ m.currentDrawdown)
  ∨ (cb.type = "daily_loss" ∧ cb.threshold ≤ m.dailyLossUSDT)
  ∨ (cb.type = "volatility" ∧ cb.threshold ≤ m.volatilityPct)

instance (m : RiskMetrics) (cb : CircuitBreaker) : Decidable (breakerTrips m cb) := by
  unfold breakerTrips; infer_instance

/-- The quote amount `validateBuyAction` reads from the parameter bag:
`quote_usdt`, else `quoteAmount`, else the Go zero value `0`. -/
def getBuyAmount (a : ActionRequest) : ℚ :=
  match a.params.lookup "quote_usdt" with
  | some v => v
  | none =>
    match a.params.lookup "quoteAmount" with
    | some v => v
    | none => 0

/-- Embeds `Engine.validateBuyAction`: order-size check against `MaxOrderUSDT` and
projected-exposure check against `MaxTotalExposure`, both critical. Returns
the violations it appends to the result. -/
def validateBuyAction (p : Policy) (m : RiskMetrics) (a : ActionRequest) :
    List Violation :=
  let amount := getBuyAmount a
  let orderViolations : List Violation :=
    if p.maxOrderUSDT < amount then
      [{ type := "order_size", limitName := "max_order_usdt",
         limitValue := p.maxOrderUSDT, attemptedValue := amount,
         severity := "critical", message := "Order size exceeds limit" }]
    else []
  let newExposure := m.totalExposureUSDT + amount
  let exposureViolations : List Violation :=
    if p.maxTotalExposure < newExposure then
      [{ type := "total_exposure", limitName := "max_total_exposure",
         limitValue := p.maxTotalExposure, attemptedValue := newExposure,
         severity := "critical", message := "Total exposure would exceed limit" }]
    else []
  orderViolations ++ exposureViolations

/-- Embeds `Engine.validateSellAction`: no blocking checks. -/
def validateSellAction (_p : Policy) (_a : ActionRequest) : List Violation := []

/-- Embeds `Engine.validateGridAction`: total grid capital (levels × order size)
against `MaxPositionUSDT`, warning severity. Missing parameters read as the
Go zero value `0`. -/
def validateGridAction (p : Policy) (a : ActionRequest) : List Violation :=
  let levels := (a.params.lookup "levels").getD 0
  let orderSize := (a.params.lookup "order_size_quote").getD 0
  let totalGridCapital := levels * orderSize
  if p.maxPositionUSDT < totalGridCapital then
    [{ type := "position_size", limitName := "max_position_size_usd",
       limitValue := p.maxPositionUSDT, attemptedValue := totalGridCapital,
       severity := "warning", message := "Grid total capital exceeds position limit" }]
  else []

/-- Embeds `Engine.calculateRiskScore`: weighted sum of exposure ratio, drawdown and
daily-loss ratio (ratio terms only added when the corresponding limit is
positive, mirroring the `> 0` guards), capped above at 1. -/
def calculateRiskScore (p : Policy) (m : RiskMetrics) : ℚ :=
  let s0 : ℚ := 0
  let s1 := if 0 < p.maxTotalExposure then
      s0 + m.totalExposureUSDT / p.maxTotalExposure * 0.4 else s0
  let s2 := s1 + m.currentDrawdown / 100 * 0.3
  let s3 := if 0 < p.maxDailyLossUSDT then
      s2 + m.dailyLossUSDT / p.maxDailyLossUSDT * 0.3 else s2
  if 1 < s3 then 1 else s3

/-- The single critical violation reported when a circuit breaker trips
inside `ValidateAction` (only Type, Severity and Message are set in Go; the
numeric fields carry their zero values). -/
def circuitBreakerViolation (ev : CircuitBreakerEvent) : Violation :=
  { type := "circuit_breaker", limitName := "", limitValue := 0,
    attemptedValue := 0, severity := "critical",
    message := "Circuit breaker triggered: " ++ ev.reason }

/-- Embeds `Engine.ValidateAction` after the metrics refresh: circuit breakers are
checked first and short-circuit; otherwise per-kind checks, the trade
frequency warning, and the daily-loss critical check run, and the result is
approved exactly when no critical violation was recorded. -/
def validateActionCore (e : Engine) (a : ActionRequest) (now : Int) :
    ValidationResult :=
  match checkCircuitBreakers e now with
  | some ev =>
    { approved := false, riskScore := 0,
      violations := [circuitBreakerViolation ev],
      fallbackProfile := none, checkedAt := now }
  | none =>
    let actionViolations : List Violation :=
      if a.type = "set_dca" ∨ a.type = "buy" then
        validateBuyAction e.policy e.metrics a
      else if a.type = "sell" then validateSellAction e.policy a
      else if a.type = "set_grid" then validateGridAction e.policy a
      else []
    let freqViolations : List Violation :=
      if e.policy.tradesPerHour * 24 ≤ (e.metrics.dailyTradeCount : Int) then
        [{ type := "trade_frequency", limitName := "trades_per_day",
           limitValue := ((e.policy.tradesPerHour * 24 : Int) : ℚ),
           attemptedValue := ((e.metrics.dailyTradeCount : Nat) : ℚ) + 1,
           severity := "warning", message := "Daily trade limit exceeded" }]
      else []
    let lossViolations : List Violation :=
      if e.policy.maxDailyLossUSDT ≤ e.metrics.dailyLossUSDT then
        [{ type := "daily_loss", limitName := "max_daily_loss_usdt",
           limitValue := e.policy.maxDailyLossUSDT,
           attemptedValue := e.metrics.dailyLossUSDT,
           severity := "critical", message := "Daily loss limit reached" }]
      else []
    let violations := actionViolations ++ freqViolations ++ lossViolations
    { approved := violations.all (fun v => v.severity ≠ "critical"),
      riskScore := calculateRiskScore e.policy e.metrics,
      violations := violations,
      fallbackProfile := none, checkedAt := now }

/-- Embeds `Engine.updateMetrics`: recompute exposure and drawdown from balances
(drawdown only overwritten when exposure is positive, clamped to ≥ 0), the
24h trade count from recent trades, and the daily loss — whose computation in
the source is a stub that always yields `0`. Volatility is never written.
`none` = a storage read failed. -/
def updateMetrics (prev : RiskMetrics) (st : StorageStub) : Option RiskMetrics :=
  match st.balances with
  | none => none
  | some balances =>
    let totalExposure := (balances.map (·.totalInvested)).sum
    let totalPnL := (balances.map (·.unrealizedPnL)).sum
    let drawdown :=
      if 0 < totalExposure then
        let d := -(totalPnL / totalExposure) * 100
        if d < 0 then 0 else d
      else prev.currentDrawdown
    match st.trades with
    | none => none
    | some trades =>
      some { totalExposureUSDT := totalExposure
             dailyLossUSDT := 0
             dailyTradeCount := trades.length
             currentDrawdown := drawdown
             volatilityPct := prev.volatilityPct }

/-- Embeds `Engine.ValidateAction`: refresh the metrics from storage (an error there
is an error of the whole call), then validate. -/
def ValidateAction (e : Engine) (st : StorageStub) (a : ActionRequest)
    (now : Int) : Option ValidationResult :=
  (updateMetrics e.metrics st).map fun m =>
    validateActionCore { policy := e.policy, metrics := m } a now

/-! ## Kill switch (`execution/kill_switch.go`)

The lock-protected boolean plus metadata; the lock itself is not modelled
(the claims are about the sequential contract). -/

/-- Embeds `execution.KillSwitch` state. -/
structure KillSwitch where
  active : Bool
  activatedAt : Int
  reason : String
deriving DecidableEq

/-- Embeds `KillSwitch.Activate`. -/
def KillSwitch.Activate (ks : KillSwitch) (reason : String) (now : Int) :
    KillSwitch :=
  { ks with active := true, activatedAt := now, reason := reason }

/-- Embeds `KillSwitch.Deactivate`. -/
def KillSwitch.Deactivate (ks : KillSwitch) : KillSwitch :=
  { ks with active := false, reason := "" }

/-- Embeds `KillSwitch.IsActive`. -/
def KillSwitch.IsActive (ks : KillSwitch) : Bool := ks.active

/-! ## Slippage guard (`execution/slippage_guard.go`) -/

/-- The distinguishable error kinds of the execution layer (the sentinel
errors of `executor.go` plus the wrapped / `fmt.Errorf` cases). -/
inductive ExecError where
  | killSwitchActive
  | policyViolation
  | slippageTooHigh
  | priceUnavailable
  | insufficientFunds
  | invalidExpectedPrice
  | unknownActionType
  | missingQuoteParam
  | balanceFetchError
  | orderPlacementError
  | gridNotImplemented
  | validationError
deriving DecidableEq

/-- Embeds `SlippageGuard.CheckSlippage`: a non-positive expected price is an error
before any division; otherwise the absolute percentage deviation is compared
against the threshold. `none` = the check passes. -/
def CheckSlippage (thresholdPercent actualPrice expectedPrice : ℚ) :
    Option ExecError :=
  if expectedPrice ≤ 0 then some .invalidExpectedPrice
  else
    let slippage := |(actualPrice - expectedPrice) / expectedPrice * 100|
    if thresholdPercent < slippage then some .slippageTooHigh
    else none

/-- Embeds `SlippageGuard.CalculateSlippage`: `0.0` for a non-positive expected
price, else the absolute percentage deviation. -/
def CalculateSlippage (actualPrice expectedPrice : ℚ) : ℚ :=
  if expectedPrice ≤ 0 then 0
  else |(actualPrice - expectedPrice) / expectedPrice * 100|

/-! ## Price failover (`execution/price_failover.go`) -/

/-- A price source (`PriceSource.GetPrice`), `none` = the source fails. -/
def PriceSource : Type := String → Option ℚ

/-- The per-symbol price cache: symbol ↦ (price, timestamp). -/
def PriceCache : Type := String → Option (ℚ × Int)

/-- Embeds `execution.PriceFailover` state. -/
structure PriceFailover where
  primary : PriceSource
  fallbacks : List PriceSource
  cache : PriceCache

/-- Cache validity window: 5 minutes. -/
def cacheTTL : Int := 300

/-- Writing one cache entry (`pf.cache[symbol] = {price, now}`). -/
def cacheInsert (c : PriceCache) (symbol : String) (price : ℚ) (now : Int) :
    PriceCache :=
  fun s => if s = symbol then some (price, now) else c s

/-- The fallback loop of `PriceFailover.GetPrice`: try each fallback source
in registration order, stopping at the first success. Returns the result and
the 0-based indices of the fallbacks that were queried, in query order. -/
def tryFallbacks (symbol : String) : List PriceSource → Option ℚ × List Nat
  | [] => (none, [])
  | src :: rest =>
    match src symbol with
    | some price => (some price, [0])
    | none =>
      let (res, tried) := tryFallbacks symbol rest
      (res, 0 :: tried.map (· + 1))

/-- Embeds `PriceFailover.GetPrice`: primary source first (caching on success), then
the fallbacks in order (caching on success), then the cache if the entry is
younger than 5 minutes, else the price-unavailable error (`none`). Returns
(result, new state, trace of queried sources: `0` = primary, `i+1` =
fallback `i`). -/
def PriceFailover.GetPrice (pf : PriceFailover) (symbol : String) (now : Int) :
    Option ℚ × PriceFailover × List Nat :=
  match pf.primary symbol with
  | some price =>
    (some price, { pf with cache := cacheInsert pf.cache symbol price now }, [0])
  | none =>
    match tryFallbacks symbol pf.fallbacks with
    | (some price, tried) =>
      (some price, { pf with cache := cacheInsert pf.cache symbol price now },
       0 :: tried.map (· + 1))
    | (none, tried) =>
      let full := 0 :: tried.map (· + 1)
      match pf.cache symbol with
      | some (price, ts) =>
        if now - ts < cacheTTL then (some price, pf, full)
        else (none, pf, full)
      | none => (none, pf, full)

/-! ## Executor (`execution/executor.go`) -/

/-- An observable call on the `Exchange` collaborator. -/
inductive ExchCall where
  | getPrice (symbol : String)
  | getBalance (asset : String)
  | placeMarketOrder (symbol side : String) (quantity : ℚ)
deriving DecidableEq

/-- Whether a call is `PlaceMarketOrder`. -/
def ExchCall.isPlaceOrder : ExchCall → Bool
  | .placeMarketOrder _ _ _ => true
  | _ => false

/-- Stub of the `Exchange` interface: pure descriptions of what each call
would return (`none` = the call errors). -/
structure Exchange where
  price : String → Option ℚ
  balance : String → Option ℚ
  placeOrder : String → String → ℚ → Option String

/-- Embeds `execution.ExecutionResult`. -/
structure ExecutionResult where
  success : Bool
  orderID : String
  executedAt : Int
  actualPrice : ℚ
  actualAmount : ℚ
  slippage : ℚ
  error : Option ExecError
deriving DecidableEq

/-- Embeds `execution.AIDecision` (the executor-side mirror). -/
structure ExecAIDecision where
  id : Int
  regime : String
  confidence : ℚ
  rationale : String
deriving DecidableEq

/-- Embeds `execution.ExecutionRequest`. -/
structure ExecutionRequest where
  action : ActionRequest
  decision : Option ExecAIDecision
deriving DecidableEq

/-- The Go pair `(*ExecutionResult, error)` of `Executor.Execute` together
with the trace of exchange calls the execution performed. -/
structure ExecOutcome where
  result : Option ExecutionResult
  err : Option ExecError
  calls : List ExchCall

/-- Embeds `execution.Executor`: the kill switch, the injected policy engine
(abstracted to its validation outcome; `none` = the validation call errors),
the price-failover state (whose primary source is the exchange, as wired by
`NewExecutor`), the slippage threshold and the exchange. -/
structure Executor where
  killSwitch : KillSwitch
  validate : ActionRequest → Option ValidationResult
  fallbacks : List PriceSource
  cache : PriceCache
  slippageThreshold : ℚ
  exch : Exchange

/-- A failed `ExecutionResult` carrying only the timestamp and an error,
as built at the executor's early exits. -/
def failedResult (now : Int) (er : ExecError) : ExecutionResult :=
  { success := false, orderID := "", executedAt := now, actualPrice := 0,
    actualAmount := 0, slippage := 0, error := some er }

/-- Embeds `Executor.executeBuy`: read the quote amount (`quote_usdt`, else
`quoteAmount`, else a missing-parameter error), check the USDT balance covers
it, derive the base quantity from the price and place a market BUY. -/
def executeBuy (e : Executor) (symbol : String) (params : List (String × ℚ))
    (price : ℚ) (now : Int) : ExecOutcome :=
  let quoteAmount : Option ℚ :=
    match params.lookup "quote_usdt" with
    | some v => some v
    | none => params.lookup "quoteAmount"
  match quoteAmount with
  | none => { result := none, err := some .missingQuoteParam, calls := [] }
  | some amount =>
    match e.exch.balance "USDT" with
    | none =>
      { result := none, err := some .balanceFetchError,
        calls := [.getBalance "USDT"] }
    | some usdtBalance =>
      if usdtBalance < amount then
        { result := some (failedResult now .insufficientFunds),
          err := some .insufficientFunds, calls := [.getBalance "USDT"] }
      else
        let quantity := amount / price
        match e.exch.placeOrder symbol "BUY" quantity with
        | none =>
          { result := some (failedResult now .orderPlacementError),
            err := some .orderPlacementError,
            calls := [.getBalance "USDT", .placeMarketOrder symbol "BUY" quantity] }
        | some orderID =>
          let ok : ExecutionResult :=
            { success := true, orderID := orderID, executedAt := now,
              actualPrice := price, actualAmount := amount,
              slippage := 0, error := none }
          { result := some ok, err := none,
            calls := [.getBalance "USDT", .placeMarketOrder symbol "BUY" quantity] }

/-- Embeds `Executor.executeSell`: resolve the sell percentage (default 100), read
the base-asset balance (the symbol minus its trailing "USDT"), and place a
market SELL for that share of the balance. -/
def executeSell (e : Executor) (symbol : String) (params : List (String × ℚ))
    (price : ℚ) (now : Int) : ExecOutcome :=
  let sellPercent := (params.lookup "percent").getD 100
  let asset := symbol.dropRight 4
  match e.exch.balance asset with
  | none =>
    { result := none, err := some .balanceFetchError,
      calls := [.getBalance asset] }
  | some balance =>
    if balance ≤ 0 then
      { result := some (failedResult now .insufficientFunds),
        err := some .insufficientFunds, calls := [.getBalance asset] }
    else
      let quantity := balance * (sellPercent / 100)
      match e.exch.placeOrder symbol "SELL" quantity with
      | none =>
        { result := some (failedResult now .orderPlacementError),
          err := some .orderPlacementError,
          calls := [.getBalance asset, .placeMarketOrder symbol "SELL" quantity] }
      | some orderID =>
        let ok : ExecutionResult :=
          { success := true, orderID := orderID, executedAt := now,
            actualPrice := price, actualAmount := quantity * price,
            slippage := 0, error := none }
        { result := some ok, err := none,
          calls := [.getBalance asset, .placeMarketOrder symbol "SELL" quantity] }

/-- Embeds `Executor.executeGrid`: deliberately unimplemented at this layer. -/
def executeGrid (_e : Executor) (_symbol : String)
    (_params : List (String × ℚ)) (now : Int) : ExecOutcome :=
  { result := some (failedResult now .gridNotImplemented),
    err := some .gridNotImplemented, calls := [] }

/-- Embeds `Executor.executeOrder`: dispatch on the action kind. -/
def executeOrder (e : Executor) (a : ActionRequest) (price : ℚ) (now : Int) :
    ExecOutcome :=
  if a.type = "buy" ∨ a.type = "set_dca" then
    executeBuy e a.symbol a.params price now
  else if a.type = "sell" then
    executeSell e a.symbol a.params price now
  else if a.type = "set_grid" then
    executeGrid e a.symbol a.params now
  else
    { result := some (failedResult now .unknownActionType),
      err := some .unknownActionType, calls := [] }

/-- Embeds `Executor.Execute`: the gate chain — kill switch, policy validation,
price failover (primary = the exchange's `GetPrice`), slippage guard for
buy-kind actions carrying `expected_price`, then the kind-specific order
dispatch. Every early exit happens before any later side effect. -/
def Executor.Execute (e : Executor) (req : ExecutionRequest) (now : Int) :
    ExecOutcome :=
  if e.killSwitch.IsActive then
    { result := some (failedResult now .killSwitchActive),
      err := some .killSwitchActive, calls := [] }
  else
    match e.validate req.action with
    | none => { result := none, err := some .validationError, calls := [] }
    | some validation =>
      if validation.approved = false then
        { result := some (failedResult now .policyViolation),
          err := some .policyViolation, calls := [] }
      else
        let symbol := req.action.symbol
        let pf : PriceFailover :=
          { primary := e.exch.price, fallbacks := e.fallbacks, cache := e.cache }
        match (pf.GetPrice symbol now).1 with
        | none =>
          { result := some (failedResult now .priceUnavailable),
            err := some .priceUnavailable, calls := [.getPrice symbol] }
        | some price =>
          let slipCheck : Option ExecError :=
            if req.action.type = "buy" ∨ req.action.type = "set_dca" then
              match req.action.params.lookup "expected_price" with
              | some expected => CheckSlippage e.slippageThreshold price expected
              | none => none
            else none
          match slipCheck with
          | some er =>
            { result := some { failedResult now er with actualPrice := price },
              err := some er, calls := [.getPrice symbol] }
          | none =>
            let tail := executeOrder e req.action price now
            { result := tail.result, err := tail.err,
              calls := .getPrice symbol :: tail.calls }

/-! ## Orchestrator (`orchestrator/orchestrator.go`) -/

/-- Embeds `orchestrator.ModeShadow` (Go `type Mode string`). -/
def ModeShadow : String := "shadow"
/-- Embeds `orchestrator.ModePilot`. -/
def ModePilot : String := "pilot"
/-- Embeds `orchestrator.ModeFull`. -/
def ModeFull : String := "full"

/-- The oracle's `ai.DecisionResponse`, as the cycle consumes it. -/
structure DecisionResponse where
  regime : String
  confidence : ℚ
  rationale : String
  actions : List ActionRequest
deriving DecidableEq

/-- The observable steps of one decision cycle, in the order the
orchestrator performs them. -/
inductive CycleEvent where
  | contextGathered
  | oracleCalled
  | decisionSaved
  | validated (a : ActionRequest)
  | violationSaved (v : Violation)
  | executed (a : ActionRequest) (ok : Bool)
  | wouldExecute (a : ActionRequest)
deriving DecidableEq

/-- One decision cycle's collaborators and ambient state, abstracted to the
outcomes the orchestrator observes: the circuit-breaker check's result, the
oracle's answer (`none` = `RequestDecision` fails), whether a storage handle
is wired (`o.storage != nil`), the policy engine's validation outcome per
action (`none` = the validation call errors), and whether executing a given
action succeeds. -/
structure CycleEnv where
  mode : String
  now : Int
  breaker : Option CircuitBreakerEvent
  oracle : Option DecisionResponse
  hasStorage : Bool
  validate : ActionRequest → Option ValidationResult
  execOk : ActionRequest → Bool

/-- The cycle's outcome: the event trace, whether `runDecisionCycle`
returned an error, and the approved/total counts of the final summary. -/
structure CycleResult where
  events : List CycleEvent
  errored : Bool
  approved : Nat
  total : Nat
deriving DecidableEq

/-- The per-action loop of `runDecisionCycle` (step 5): validate; a
validation error or a rejection skips just this action (rejection saves each
violation when storage is wired); an approved action is counted and then
executed when the mode is not shadow (its failure only logged), or merely
logged as "would execute" in shadow mode. -/
def processActions (env : CycleEnv) : List ActionRequest → List CycleEvent × Nat
  | [] => ([], 0)
  | a :: rest =>
    match env.validate a with
    | none =>
      let (evs, n) := processActions env rest
      (.validated a :: evs, n)
    | some validation =>
      if validation.approved = false then
        let saves : List CycleEvent :=
          if env.hasStorage then validation.violations.map .violationSaved else []
        let (evs, n) := processActions env rest
        (.validated a :: (saves ++ evs), n)
      else
        let act : List CycleEvent :=
          if env.mode ≠ ModeShadow then [.executed a (env.execOk a)]
          else [.wouldExecute a]
        let (evs, n) := processActions env rest
        (.validated a :: (act ++ evs), n + 1)

/-- Embeds `Orchestrator.runDecisionCycle`: an active circuit breaker whose pause
window has not elapsed skips the whole cycle; otherwise context is gathered,
the oracle is asked (its failure errors the cycle), the decision is saved
best-effort when storage is wired, and the actions are processed in order. -/
def runDecisionCycle (env : CycleEnv) : CycleResult :=
  let blocked : Bool :=
    match env.breaker with
    | some ev => decide (env.now < ev.pausedUntil)
    | none => false
  if blocked then
    { events := [], errored := false, approved := 0, total := 0 }
  else
    match env.oracle with
    | none =>
      { events := [.contextGathered, .oracleCalled], errored := true,
        approved := 0, total := 0 }
    | some decision =>
      let saveEvs : List CycleEvent :=
        if env.hasStorage then [.decisionSaved] else []
      let (actionEvs, approved) := processActions env decision.actions
      { events := [.contextGathered, .oracleCalled] ++ saveEvs ++ actionEvs,
        errored := false, approved := approved,
        total := decision.actions.length }

/-- Embeds `Orchestrator.SetMode`: assigns the given mode with no validation. -/
def Orchestrator.SetMode (mode : String) (_current : String) : String := mode

/-- Embeds `agents.DecisionAgent.SetMode`: rejects any string other than shadow,
pilot or full with an error (leaving the stored mode unchanged); stores a
valid mode. Returns `(stored mode, ok?)`. -/
def DecisionAgent.SetMode (mode : String) (current : String) : String × Bool :=
  if mode = "shadow" ∨ mode = "pilot" ∨ mode = "full" then (mode, true)
  else (current, false)

/-! ## Theorems -/

/-- C1: while the kill switch is active, `Executor.Execute` returns a result
with `Success = false` carrying the distinct kill-switch error, and performs
zero calls to the exchange's `PlaceMarketOrder` (indeed no exchange call at
all: no gate after the kill-switch gate runs). -/
theorem C1_kill_switch_blocks_execution (e : Executor) (req : ExecutionRequest)
    (now : Int) (h : e.killSwitch.IsActive = true) :
    (e.Execute req now).result = some (failedResult now .killSwitchActive) ∧
    (failedResult now ExecError.killSwitchActive).success = false ∧
    (failedResult now ExecError.killSwitchActive).error
      = some ExecError.killSwitchActive ∧
    (e.Execute req now).err = some ExecError.killSwitchActive ∧
    (e.Execute req now).calls.countP ExchCall.isPlaceOrder = 0 := by
  simp [Executor.Execute, h, failedResult]

/-- A stub exchange every call of which fails: adequate for exercising the
kill-switch gate, which must run before any exchange call. -/
def deadExchange : Exchange :=
  { price := fun _ => none, balance := fun _ => none,
    placeOrder := fun _ _ _ => none }

/-- An executor whose kill switch is active. -/
def executorC1 : Executor :=
  { killSwitch := { active := true, activatedAt := 0, reason := "manual stop" },
    validate := fun _ =>
      some { approved := true, riskScore := 0, violations := [],
             fallbackProfile := none, checkedAt := 0 },
    fallbacks := [], cache := fun _ => none,
    slippageThreshold := 1, exch := deadExchange }

/-- A concrete buy request. -/
def requestC1 : ExecutionRequest :=
  { action := { type := "buy", symbol := "BTCUSDT",
                params := [("quote_usdt", 50)] },
    decision := none }

/-- Witness for C1 at a concrete executor and request. -/
theorem C1_witness :
    (executorC1.Execute requestC1 0).result
      = some (failedResult 0 .killSwitchActive) ∧
    (failedResult 0 ExecError.killSwitchActive).success = false ∧
    (failedResult 0 ExecError.killSwitchActive).error
      = some ExecError.killSwitchActive ∧
    (executorC1.Execute requestC1 0).err = some ExecError.killSwitchActive ∧
    (executorC1.Execute requestC1 0).calls.countP ExchCall.isPlaceOrder = 0 :=
  C1_kill_switch_blocks_execution executorC1 requestC1 0 rfl

/-- C10: for every actual price and every expected price ≤ 0,
`SlippageGuard.CheckSlippage` returns an error (it never passes) and
`SlippageGuard.CalculateSlippage` returns `0.0`; the division by the
expected price is only reached in the strictly-positive branch. -/
theorem C10_slippage_guard_nonpositive_expected
    (threshold actual expected : ℚ) (h : expected ≤ 0) :
    CheckSlippage threshold actual expected
      = some ExecError.invalidExpectedPrice ∧
    CalculateSlippage actual expected = 0 := by
  simp [CheckSlippage, CalculateSlippage, h]

/-- Witness for C10 at expected prices `0` and `-2`. -/
theorem C10_witness :
    (CheckSlippage 1 5 0 = some ExecError.invalidExpectedPrice ∧
      CalculateSlippage 5 0 = 0) ∧
    (CheckSlippage 1 5 (-2) = some ExecError.invalidExpectedPrice ∧
      CalculateSlippage 5 (-2) = 0) :=
  ⟨C10_slippage_guard_nonpositive_expected 1 5 0 (by norm_num),
   C10_slippage_guard_nonpositive_expected 1 5 (-2) (by norm_num)⟩

/-- C9 counterexample: `Orchestrator.SetMode` performs no validation — the
invalid string "bogus" is not rejected; it is stored, so the stored mode
changes to a value outside {shadow, pilot, full}. -/
theorem C9_counterexample :
    ¬("bogus" = "shadow" ∨ "bogus" = "pilot" ∨ "bogus" = "full") ∧
    Orchestrator.SetMode "bogus" ModeShadow = "bogus" ∧
    Orchestrator.SetMode "bogus" ModeShadow ≠ ModeShadow := by
  decide

/-- C9 amended: the `DecisionAgent` mode setter is validated — any string
other than shadow/pilot/full is rejected with an error and the stored mode is
unchanged, while the three valid values are stored; the `Orchestrator`'s own
`SetMode` performs no validation and stores whatever it is given. -/
theorem C9_mode_setters (mode current : String) :
    (¬(mode = "shadow" ∨ mode = "pilot" ∨ mode = "full") →
      DecisionAgent.SetMode mode current = (current, false)) ∧
    ((mode = "shadow" ∨ mode = "pilot" ∨ mode = "full") →
      DecisionAgent.SetMode mode current = (mode, true)) ∧
    Orchestrator.SetMode mode current = mode := by
  refine ⟨fun h => ?_, fun h => ?_, rfl⟩ <;> simp [DecisionAgent.SetMode, h]

/-- Witness for C9 at the invalid input "bogus" and the valid input
"pilot". -/
theorem C9_witness :
    DecisionAgent.SetMode "bogus" "shadow" = ("shadow", false) ∧
    DecisionAgent.SetMode "pilot" "shadow" = ("pilot", true) :=
  ⟨(C9_mode_setters "bogus" "shadow").1 (by decide),
   (C9_mode_setters "pilot" "shadow").2.1 (by decide)⟩

/-- The events one single action contributes to the cycle trace, as a
function of that action alone. -/
def perActionEvents (env : CycleEnv) (a : ActionRequest) : List CycleEvent :=
  match env.validate a with
  | none => [.validated a]
  | some validation =>
    if validation.approved = false then
      .validated a ::
        (if env.hasStorage then validation.violations.map .violationSaved else [])
    else
      .validated a ::
        (if env.mode ≠ ModeShadow then [.executed a (env.execOk a)]
         else [.wouldExecute a])

/-- Whether the policy engine approves an action in the given cycle. -/
def actionApproved (env : CycleEnv) (a : ActionRequest) : Bool :=
  match env.validate a with
  | some validation => validation.approved
  | none => false

/-- The action loop is a per-action concatenation: each action's events are a
function of that action only, and the approved count is a per-action count —
no action's outcome influences the processing of the others. -/
theorem processActions_eq (env : CycleEnv) (as : List ActionRequest) :
    processActions env as
      = (as.flatMap (perActionEvents env), as.countP (actionApproved env)) := by
  induction as with
  | nil => simp [processActions]
  | cons a rest ih =>
    unfold processActions
    rw [ih]
    unfold perActionEvents actionApproved
    cases hv : env.validate a with
    | none => simp [hv, List.countP_cons]
    | some validation =>
      by_cases happ : validation.approved = false <;>
        simp [hv, happ, List.countP_cons, List.flatMap_cons]

/-- C2: in shadow mode the orchestrator never invokes the executor during a
decision cycle — no `executed` step ever appears in the cycle trace,
whatever the oracle proposes and however the policy engine rules. -/
theorem C2_shadow_mode_never_executes (env : CycleEnv)
    (h : env.mode = ModeShadow) (a : ActionRequest) (ok : Bool) :
    CycleEvent.executed a ok ∉ (runDecisionCycle env).events := by
  have hper : ∀ b, CycleEvent.executed a ok ∉ perActionEvents env b := by
    intro b
    unfold perActionEvents
    cases hv : env.validate b with
    | none => simp
    | some validation =>
      by_cases happ : validation.approved = false <;> simp [happ, h]
  have hsave : CycleEvent.executed a ok
      ∉ (if env.hasStorage then [CycleEvent.decisionSaved] else []) := by
    split <;> simp
  cases hb : env.breaker with
  | some ev =>
    by_cases ht : env.now < ev.pausedUntil
    · simp [runDecisionCycle, hb, ht]
    · cases ho : env.oracle with
      | none => simp [runDecisionCycle, hb, ht, ho]
      | some d =>
        simp [runDecisionCycle, hb, ht, ho, processActions_eq,
          List.mem_append, hper, hsave]
  | none =>
    cases ho : env.oracle with
    | none => simp [runDecisionCycle, hb, ho]
    | some d =>
      simp [runDecisionCycle, hb, ho, processActions_eq,
        List.mem_append, hper, hsave]

/-- A concrete action proposed by the oracle. -/
def actionBuy : ActionRequest :=
  { type := "buy", symbol := "BTCUSDT", params := [("quote_usdt", 50)] }

/-- An approving validation result. -/
def approvedResult : ValidationResult :=
  { approved := true, riskScore := 0, violations := [],
    fallbackProfile := none, checkedAt := 0 }

/-- A shadow-mode cycle whose only proposed action is approved. -/
def envC2 : CycleEnv :=
  { mode := ModeShadow, now := 0, breaker := none,
    oracle := some { regime := "ACCUMULATE", confidence := 0.9,
                     rationale := "", actions := [actionBuy] },
    hasStorage := true,
    validate := fun _ => some approvedResult,
    execOk := fun _ => true }

/-- Witness for C2: in the concrete shadow-mode cycle with an approved
action, no executor invocation appears in the trace. -/
theorem C2_witness :
    CycleEvent.executed actionBuy true ∉ (runDecisionCycle envC2).events :=
  C2_shadow_mode_never_executes envC2 rfl actionBuy true

/-- C4: when the circuit-breaker check reports a breaker whose pause window
has not elapsed (`now < PausedUntil`), the orchestrator skips the whole
cycle: the trace is empty — in particular the oracle is never asked, no
context is gathered and no violation is recorded — and the cycle exits
without error. -/
theorem C4_active_breaker_skips_cycle (env : CycleEnv)
    (ev : CircuitBreakerEvent) (hb : env.breaker = some ev)
    (ht : env.now < ev.pausedUntil) :
    (runDecisionCycle env).events = [] ∧
    (runDecisionCycle env).errored = false ∧
    CycleEvent.oracleCalled ∉ (runDecisionCycle env).events ∧
    CycleEvent.contextGathered ∉ (runDecisionCycle env).events ∧
    ∀ v, CycleEvent.violationSaved v ∉ (runDecisionCycle env).events := by
  simp [runDecisionCycle, hb, ht]

/-- The breaker event held active in the C4 witness cycle. -/
def breakerEventC4 : CircuitBreakerEvent :=
  { reason := "drawdown at or above threshold", details := "",
    pausedUntil := 100 }

/-- A cycle starting while `breakerEventC4` is still pausing (now = 0 <
100), with an oracle and an approved action standing by. -/
def envC4 : CycleEnv :=
  { mode := ModeFull, now := 0, breaker := some breakerEventC4,
    oracle := some { regime := "ACCUMULATE", confidence := 0.9,
                     rationale := "", actions := [actionBuy] },
    hasStorage := true,
    validate := fun _ => some approvedResult,
    execOk := fun _ => true }

/-- Witness for C4 at the concrete paused cycle. -/
theorem C4_witness :
    (runDecisionCycle envC4).events = [] ∧
    (runDecisionCycle envC4).errored = false ∧
    CycleEvent.oracleCalled ∉ (runDecisionCycle envC4).events ∧
    CycleEvent.contextGathered ∉ (runDecisionCycle envC4).events ∧
    ∀ v, CycleEvent.violationSaved v ∉ (runDecisionCycle envC4).events :=
  C4_active_breaker_skips_cycle envC4 breakerEventC4 rfl (by decide)

/-- The `validated` step for an action always opens that action's own event
block, whatever the validation outcome. -/
theorem validated_mem_perActionEvents (env : CycleEnv) (b : ActionRequest) :
    CycleEvent.validated b ∈ perActionEvents env b := by
  unfold perActionEvents
  cases hv : env.validate b with
  | none => simp
  | some validation =>
    by_cases happ : validation.approved = false <;> simp [happ]

/-- C8: in a cycle that reaches the action loop, the per-action processing
is isolated: the trace decomposes into a per-action concatenation (each
action's events are a function of that action alone, so a validation error,
a rejection or an execution failure of one action cannot abort the others),
every action of the decision is validated, and the summary counts all of
them. -/
theorem C8_per_action_failures_isolated (env : CycleEnv)
    (d : DecisionResponse)
    (hb : ∀ ev, env.breaker = some ev → ev.pausedUntil ≤ env.now)
    (ho : env.oracle = some d) :
    (runDecisionCycle env).events
      = [CycleEvent.contextGathered, CycleEvent.oracleCalled]
        ++ (if env.hasStorage then [CycleEvent.decisionSaved] else [])
        ++ d.actions.flatMap (perActionEvents env) ∧
    (∀ a ∈ d.actions,
      CycleEvent.validated a ∈ (runDecisionCycle env).events) ∧
    (runDecisionCycle env).total = d.actions.length := by
  have hblock : (match env.breaker with
      | some ev => decide (env.now < ev.pausedUntil)
      | none => false) = false := by
    cases hb2 : env.breaker with
    | none => rfl
    | some ev =>
      simp only [decide_eq_false_iff_not]
      exact not_lt.mpr (hb ev hb2)
  have hev : (runDecisionCycle env).events
      = [CycleEvent.contextGathered, CycleEvent.oracleCalled]
        ++ (if env.hasStorage then [CycleEvent.decisionSaved] else [])
        ++ d.actions.flatMap (perActionEvents env) := by
    simp [runDecisionCycle, hblock, ho, processActions_eq]
  refine ⟨hev, ?_, ?_⟩
  · intro a ha
    rw [hev]
    exact List.mem_append_right _
      (List.mem_flatMap.mpr ⟨a, ha, validated_mem_perActionEvents env a⟩)
  · simp [runDecisionCycle, hblock, ho, processActions_eq]

/-- A rejecting validation result with one critical violation. -/
def rejectedResult : ValidationResult :=
  { approved := false, riskScore := 0,
    violations := [{ type := "order_size", limitName := "max_order_usdt",
                     limitValue := 100, attemptedValue := 150,
                     severity := "critical", message := "Order size exceeds limit" }],
    fallbackProfile := none, checkedAt := 0 }

/-- A concrete sell action (approved in the C8 witness cycle). -/
def actionSell : ActionRequest :=
  { type := "sell", symbol := "BTCUSDT", params := [("percent", 50)] }

/-- The C8 witness decision: a rejected buy followed by an approved sell. -/
def decisionC8 : DecisionResponse :=
  { regime := "DEFENSE", confidence := 0.8, rationale := "",
    actions := [actionBuy, actionSell] }

/-- A full-mode cycle in which the first action is rejected, the second is
approved but its execution fails. -/
def envC8 : CycleEnv :=
  { mode := ModeFull, now := 0, breaker := none,
    oracle := some decisionC8,
    hasStorage := true,
    validate := fun a =>
      if a.type = "sell" then some approvedResult else some rejectedResult,
    execOk := fun _ => false }

/-- Witness for C8: in the concrete cycle both actions are validated and
counted even though the first is rejected and the second's execution
fails. -/
theorem C8_witness :
    CycleEvent.validated actionBuy ∈ (runDecisionCycle envC8).events ∧
    CycleEvent.validated actionSell ∈ (runDecisionCycle envC8).events ∧
    (runDecisionCycle envC8).total = decisionC8.actions.length := by
  have h := C8_per_action_failures_isolated envC8 decisionC8
    (by intro ev hev; exact Option.noConfusion hev) rfl
  exact ⟨h.2.1 actionBuy (by decide), h.2.1 actionSell (by decide), h.2.2⟩

/-- The final cap of `calculateRiskScore` is monotone. -/
theorem riskCap_mono {a b : ℚ} (h : a ≤ b) :
    (if 1 < a then (1 : ℚ) else a) ≤ (if 1 < b then 1 else b) := by
  split_ifs with h1 h2 <;> linarith

/-- With positive limits, `calculateRiskScore` is the capped weighted sum. -/
theorem calculateRiskScore_eq (p : Policy) (m : RiskMetrics)
    (hme : 0 < p.maxTotalExposure) (hml : 0 < p.maxDailyLossUSDT) :
    calculateRiskScore p m =
      (if 1 < m.totalExposureUSDT / p.maxTotalExposure * 0.4
            + m.currentDrawdown / 100 * 0.3
            + m.dailyLossUSDT / p.maxDailyLossUSDT * 0.3
       then 1
       else m.totalExposureUSDT / p.maxTotalExposure * 0.4
            + m.currentDrawdown / 100 * 0.3
            + m.dailyLossUSDT / p.maxDailyLossUSDT * 0.3) := by
  simp [calculateRiskScore, hme, hml]

/-- C6: with positive configured limits, the risk score is monotonically
non-decreasing in each of total exposure, current drawdown, and daily loss
when the other two are held fixed; and for non-negative inputs it lies in
[0, 1] and equals `clamp(0.4·(exposure/maxExposure) + 0.3·(drawdown/100) +
0.3·(dailyLoss/maxDailyLoss), 0, 1)`. -/
theorem C6_risk_score_monotone_and_bounded (p : Policy) (m : RiskMetrics)
    (hme : 0 < p.maxTotalExposure) (hml : 0 < p.maxDailyLossUSDT) :
    (∀ e₁ e₂, e₁ ≤ e₂ →
      calculateRiskScore p { m with totalExposureUSDT := e₁ }
        ≤ calculateRiskScore p { m with totalExposureUSDT := e₂ }) ∧
    (∀ d₁ d₂, d₁ ≤ d₂ →
      calculateRiskScore p { m with currentDrawdown := d₁ }
        ≤ calculateRiskScore p { m with currentDrawdown := d₂ }) ∧
    (∀ l₁ l₂, l₁ ≤ l₂ →
      calculateRiskScore p { m with dailyLossUSDT := l₁ }
        ≤ calculateRiskScore p { m with dailyLossUSDT := l₂ }) ∧
    (0 ≤ m.totalExposureUSDT → 0 ≤ m.currentDrawdown → 0 ≤ m.dailyLossUSDT →
      0 ≤ calculateRiskScore p m ∧ calculateRiskScore p m ≤ 1 ∧
      calculateRiskScore p m
        = max 0 (min 1 (0.4 * (m.totalExposureUSDT / p.maxTotalExposure)
            + 0.3 * (m.currentDrawdown / 100)
            + 0.3 * (m.dailyLossUSDT / p.maxDailyLossUSDT)))) := by
  refine ⟨?_, ?_, ?_, ?_⟩
  · intro e₁ e₂ hee
    rw [calculateRiskScore_eq p _ hme hml, calculateRiskScore_eq p _ hme hml]
    apply riskCap_mono
    gcongr
  · intro d₁ d₂ hdd
    rw [calculateRiskScore_eq p _ hme hml, calculateRiskScore_eq p _ hme hml]
    apply riskCap_mono
    gcongr
  · intro l₁ l₂ hll
    rw [calculateRiskScore_eq p _ hme hml, calculateRiskScore_eq p _ hme hml]
    apply riskCap_mono
    gcongr
  · intro he hd hl
    rw [calculateRiskScore_eq p m hme hml]
    have hraw0 : 0 ≤ m.totalExposureUSDT / p.maxTotalExposure * 0.4
        + m.currentDrawdown / 100 * 0.3
        + m.dailyLossUSDT / p.maxDailyLossUSDT * 0.3 := by positivity
    have hcomm : m.totalExposureUSDT / p.maxTotalExposure * 0.4
        + m.currentDrawdown / 100 * 0.3
        + m.dailyLossUSDT / p.maxDailyLossUSDT * 0.3
        = 0.4 * (m.totalExposureUSDT / p.maxTotalExposure)
          + 0.3 * (m.currentDrawdown / 100)
          + 0.3 * (m.dailyLossUSDT / p.maxDailyLossUSDT) := by ring
    refine ⟨?_, ?_, ?_⟩
    · split_ifs with h1
      · norm_num
      · exact hraw0
    · split_ifs with h1
      · exact le_refl 1
      · exact not_lt.mp h1
    · rw [hcomm] at hraw0 ⊢
      split_ifs with h1
      · rw [min_eq_left (le_of_lt h1)]
        norm_num
      · rw [min_eq_right (not_lt.mp h1), max_eq_right hraw0]

/-- A concrete balanced policy. -/
def policyC6 : Policy :=
  { profileName := "balanced", maxOrderUSDT := 100, maxPositionUSDT := 1000,
    maxTotalExposure := 5000, maxDailyLossUSDT := 200, tradesPerHour := 10,
    slippageThreshold := 1, circuitBreakers := [] }

/-- Concrete non-negative risk metrics. -/
def metricsC6 : RiskMetrics :=
  { totalExposureUSDT := 2500, dailyLossUSDT := 50, dailyTradeCount := 3,
    currentDrawdown := 10, volatilityPct := 2 }

/-- Witness for C6 at the concrete policy and metrics. -/
theorem C6_witness :
    (calculateRiskScore policyC6 { metricsC6 with totalExposureUSDT := 1000 }
      ≤ calculateRiskScore policyC6 { metricsC6 with totalExposureUSDT := 2000 }) ∧
    0 ≤ calculateRiskScore policyC6 metricsC6 ∧
    calculateRiskScore policyC6 metricsC6 ≤ 1 := by
  have h := C6_risk_score_monotone_and_bounded policyC6 metricsC6
    (by norm_num [policyC6]) (by norm_num [policyC6])
  have hb := h.2.2.2 (by norm_num [metricsC6]) (by norm_num [metricsC6])
    (by norm_num [metricsC6])
  exact ⟨h.1 1000 2000 (by norm_num), hb.1, hb.2.1⟩

/-- If some configured rule's condition holds, the breaker walk reports an
event. -/
theorem checkBreakersList_isSome_of_trips (m : RiskMetrics) (now : Int)
    (cb : CircuitBreaker) :
    ∀ l : List CircuitBreaker, cb ∈ l → breakerTrips m cb →
      (checkBreakersList m now l).isSome = true := by
  intro l
  induction l with
  | nil => intro h; simp at h
  | cons c rest ih =>
    intro hmem htrips
    have hrest : cb ∈ rest → (checkBreakersList m now (c :: rest)).isSome = true := by
      intro hm2
      unfold checkBreakersList
      split_ifs <;> first | rfl | exact ih hm2 htrips
    rcases List.mem_cons.mp hmem with heq | hm2
    · subst heq
      unfold checkBreakersList
      rcases htrips with ⟨ht, hle⟩ | ⟨ht, hle⟩ | ⟨ht, hle⟩ <;> simp [ht, hle]
    · exact hrest hm2

/-- If no configured rule's condition holds, the breaker walk reports
nothing. -/
theorem checkBreakersList_eq_none (m : RiskMetrics) (now : Int) :
    ∀ l : List CircuitBreaker, (∀ cb ∈ l, ¬ breakerTrips m cb) →
      checkBreakersList m now l = none := by
  intro l
  induction l with
  | nil => intro _; rfl
  | cons c rest ih =>
    intro hall
    have hc := hall c (List.mem_cons_self c rest)
    have hrest := ih fun cb h => hall cb (List.mem_cons_of_mem c h)
    unfold checkBreakersList
    split_ifs <;>
      first
        | exact hrest
        | (exfalso; apply hc; unfold breakerTrips; tauto)

/-- C7 as amended: for a configured drawdown breaker, a drawdown exactly
equal to the threshold triggers the check (inclusive boundary); a drawdown
one unit below does not trigger it provided no configured breaker rule's
condition is met at that state. -/
theorem C7_drawdown_breaker_boundary (p : Policy) (now : Int)
    (cb : CircuitBreaker) (m₁ m₂ : RiskMetrics)
    (hmem : cb ∈ p.circuitBreakers) (htype : cb.type = "drawdown")
    (heq : m₁.currentDrawdown = cb.threshold)
    (_hbelow : m₂.currentDrawdown = cb.threshold - 1)
    (hquiet : ∀ cb' ∈ p.circuitBreakers, ¬ breakerTrips m₂ cb') :
    (checkCircuitBreakers { policy := p, metrics := m₁ } now).isSome = true ∧
    checkCircuitBreakers { policy := p, metrics := m₂ } now = none := by
  constructor
  · exact checkBreakersList_isSome_of_trips m₁ now cb p.circuitBreakers hmem
      (Or.inl ⟨htype, le_of_eq heq.symm⟩)
  · exact checkBreakersList_eq_none m₂ now p.circuitBreakers hquiet

/-- A drawdown breaker with threshold 5. -/
def breakerLowC7 : CircuitBreaker :=
  { type := "drawdown", threshold := 5, action := "pause" }

/-- A drawdown breaker with threshold 10. -/
def breakerHighC7 : CircuitBreaker :=
  { type := "drawdown", threshold := 10, action := "pause" }

/-- A policy configuring both drawdown breakers. -/
def policyC7 : Policy :=
  { profileName := "t", maxOrderUSDT := 100, maxPositionUSDT := 1000,
    maxTotalExposure := 5000, maxDailyLossUSDT := 200, tradesPerHour := 10,
    slippageThreshold := 1,
    circuitBreakers := [breakerLowC7, breakerHighC7] }

/-- Metrics whose drawdown (9) sits one unit below the threshold-10
breaker. -/
def metricsC7 : RiskMetrics :=
  { totalExposureUSDT := 0, dailyLossUSDT := 0, dailyTradeCount := 0,
    currentDrawdown := 9, volatilityPct := 0 }

/-- C7 counterexample: with a second configured drawdown breaker
(threshold 5) alongside the threshold-10 one, a drawdown of 9 — one unit
below the latter's threshold — still triggers the breaker check, so the
claim's "does not trigger one unit below the threshold" fails as stated. -/
theorem C7_counterexample :
    breakerHighC7 ∈ policyC7.circuitBreakers ∧
    breakerHighC7.type = "drawdown" ∧
    metricsC7.currentDrawdown = breakerHighC7.threshold - 1 ∧
    (checkCircuitBreakers { policy := policyC7, metrics := metricsC7 } 0).isSome
      = true := by
  refine ⟨by decide, rfl, by norm_num [metricsC7, breakerHighC7], by decide⟩

/-- A policy whose only breaker is the threshold-10 drawdown breaker. -/
def policyC7w : Policy :=
  { profileName := "t", maxOrderUSDT := 100, maxPositionUSDT := 1000,
    maxTotalExposure := 5000, maxDailyLossUSDT := 200, tradesPerHour := 10,
    slippageThreshold := 1, circuitBreakers := [breakerHighC7] }

/-- Metrics exactly at the drawdown threshold. -/
def metricsAtC7 : RiskMetrics :=
  { totalExposureUSDT := 0, dailyLossUSDT := 0, dailyTradeCount := 0,
    currentDrawdown := 10, volatilityPct := 0 }

/-- Witness for the amended C7 at the single-breaker policy. -/
theorem C7_witness :
    (checkCircuitBreakers { policy := policyC7w, metrics := metricsAtC7 } 0).isSome
      = true ∧
    checkCircuitBreakers { policy := policyC7w, metrics := metricsC7 } 0 = none :=
  C7_drawdown_breaker_boundary policyC7w 0 breakerHighC7 metricsAtC7 metricsC7
    (by decide) rfl (by decide) (by norm_num [metricsC7, breakerHighC7])
    (by decide)

/-- C3 as amended: for every buy or periodic-buy (`set_dca`) action whose
attempted quote amount exceeds the policy's `MaxOrderUSDT`, provided the
metrics refresh succeeds and no circuit breaker is tripped at validation
time, `ValidateAction` returns `Approved = false` with a critical
`order_size` violation whose `LimitValue` equals the configured
`MaxOrderUSDT` and whose `AttemptedValue` equals the attempted amount. -/
theorem C3_max_order_violation (e : Engine) (st : StorageStub)
    (a : ActionRequest) (now : Int) (m : RiskMetrics)
    (hm : updateMetrics e.metrics st = some m)
    (hcb : checkCircuitBreakers { policy := e.policy, metrics := m } now = none)
    (htype : a.type = "buy" ∨ a.type = "set_dca")
    (hamount : e.policy.maxOrderUSDT < getBuyAmount a) :
    ∃ r, ValidateAction e st a now = some r ∧
      r.approved = false ∧
      ∃ v ∈ r.violations, v.type = "order_size" ∧ v.severity = "critical" ∧
        v.limitValue = e.policy.maxOrderUSDT ∧
        v.attemptedValue = getBuyAmount a := by
  unfold ValidateAction
  rw [hm]
  simp only [Option.map_some']
  refine ⟨_, rfl, ?_, ?_⟩
  · unfold validateActionCore
    rw [hcb]
    rcases htype with ht | ht <;>
      simp [ht, validateBuyAction, hamount]
  · unfold validateActionCore
    rw [hcb]
    rcases htype with ht | ht <;>
    · simp only [ht]
      refine ⟨{ type := "order_size", limitName := "max_order_usdt",
                limitValue := e.policy.maxOrderUSDT,
                attemptedValue := getBuyAmount a, severity := "critical",
                message := "Order size exceeds limit" }, ?_, rfl, rfl, rfl, rfl⟩
      simp [validateBuyAction, hamount]

/-- The C3 counterexample policy: `MaxOrderUSDT = 100` and one drawdown
circuit breaker with threshold 5. -/
def policyC3 : Policy :=
  { profileName := "t", maxOrderUSDT := 100, maxPositionUSDT := 1000,
    maxTotalExposure := 10000, maxDailyLossUSDT := 500, tradesPerHour := 10,
    slippageThreshold := 1,
    circuitBreakers := [{ type := "drawdown", threshold := 5, action := "pause" }] }

/-- The C3 counterexample engine (metrics still at their zero values). -/
def engineC3 : Engine :=
  { policy := policyC3,
    metrics := { totalExposureUSDT := 0, dailyLossUSDT := 0,
                 dailyTradeCount := 0, currentDrawdown := 0, volatilityPct := 0 } }

/-- Storage whose balances yield exposure 100 and unrealized PnL −10, i.e. a
10% drawdown — enough to trip the threshold-5 breaker. -/
def storageC3 : StorageStub :=
  { balances := some [{ symbol := "BTCUSDT", totalInvested := 100,
                        unrealizedPnL := -10 }],
    trades := some [] }

/-- A buy of 150 USDT — over the 100 USDT order limit. -/
def actionC3 : ActionRequest :=
  { type := "buy", symbol := "BTCUSDT", params := [("quote_usdt", 150)] }

/-- The metrics `updateMetrics` derives from `storageC3`. -/
def metricsC3 : RiskMetrics :=
  { totalExposureUSDT := 100, dailyLossUSDT := 0, dailyTradeCount := 0,
    currentDrawdown := 10, volatilityPct := 0 }

/-- The breaker event the C3 counterexample validation reports. -/
def eventC3 : CircuitBreakerEvent :=
  { reason := "drawdown at or above threshold", details := "",
    pausedUntil := 3600 }

/-- C3 counterexample: with the drawdown breaker tripped, a buy of 150 over
the limit of 100 is indeed rejected, but the result's only violation is the
circuit-breaker one — its `LimitValue` (0) is not the configured
`MaxOrderUSDT` (100) and its `AttemptedValue` (0) is not the attempted 150 —
so the claim's required violation is absent. -/
theorem C3_counterexample :
    policyC3.maxOrderUSDT < getBuyAmount actionC3 ∧
    actionC3.type = "buy" ∧
    ValidateAction engineC3 storageC3 actionC3 0
      = some { approved := false, riskScore := 0,
               violations := [circuitBreakerViolation eventC3],
               fallbackProfile := none, checkedAt := 0 } ∧
    (circuitBreakerViolation eventC3).limitValue ≠ policyC3.maxOrderUSDT ∧
    (circuitBreakerViolation eventC3).attemptedValue ≠ getBuyAmount actionC3 := by
  have hm : updateMetrics engineC3.metrics storageC3 = some metricsC3 := by
    simp [updateMetrics, engineC3, storageC3, metricsC3]
  have hcb : checkCircuitBreakers
      { policy := engineC3.policy, metrics := metricsC3 } 0 = some eventC3 := by
    simp [checkCircuitBreakers, checkBreakersList, engineC3, policyC3,
      metricsC3, eventC3, oneHour]
    norm_num
  refine ⟨by decide, rfl, ?_, by decide, by decide⟩
  unfold ValidateAction
  rw [hm]
  simp only [Option.map_some']
  unfold validateActionCore
  rw [hcb]

/-- The C3 witness policy: order limit 100, one drawdown breaker far away at
threshold 50. -/
def policyC3w : Policy :=
  { profileName := "t", maxOrderUSDT := 100, maxPositionUSDT := 1000,
    maxTotalExposure := 10000, maxDailyLossUSDT := 500, tradesPerHour := 10,
    slippageThreshold := 1,
    circuitBreakers := [{ type := "drawdown", threshold := 50, action := "pause" }] }

/-- The C3 witness engine. -/
def engineC3w : Engine :=
  { policy := policyC3w,
    metrics := { totalExposureUSDT := 0, dailyLossUSDT := 0,
                 dailyTradeCount := 0, currentDrawdown := 0, volatilityPct := 0 } }

/-- Witness for the amended C3: with no breaker tripped, the 150-USDT buy
over the 100-USDT limit yields the critical order-size violation carrying
the limit and the attempted amount. -/
theorem C3_witness :
    ∃ r, ValidateAction engineC3w storageC3 actionC3 0 = some r ∧
      r.approved = false ∧
      ∃ v ∈ r.violations, v.type = "order_size" ∧ v.severity = "critical" ∧
        v.limitValue = engineC3w.policy.maxOrderUSDT ∧
        v.attemptedValue = getBuyAmount actionC3 :=
  C3_max_order_violation engineC3w storageC3 actionC3 0 metricsC3
    (by simp [updateMetrics, engineC3w, storageC3, metricsC3])
    (by decide) (Or.inl rfl) (by decide)

/-- How many fallback sources the failover loop queries for a symbol: all of
them up to and including the first that succeeds. -/
def fallbackTriedCount (symbol : String) : List PriceSource → Nat
  | [] => 0
  | src :: rest =>
    match src symbol with
    | some _ => 1
    | none => 1 + fallbackTriedCount symbol rest

/-- The fallback loop returns the first success in registration order
(`List.findSome?`) and queries exactly the first `fallbackTriedCount`
fallbacks, in order. -/
theorem tryFallbacks_spec (symbol : String) (srcs : List PriceSource) :
    tryFallbacks symbol srcs
      = (srcs.findSome? (fun s => s symbol),
         List.range (fallbackTriedCount symbol srcs)) := by
  induction srcs with
  | nil => simp [tryFallbacks, fallbackTriedCount]
  | cons src rest ih =>
    unfold tryFallbacks fallbackTriedCount
    cases h : src symbol with
    | some p =>
      simp only [List.findSome?_cons, h]
      rfl
    | none =>
      rw [ih]
      simp only [List.findSome?_cons, h]
      rw [Nat.add_comm 1 (fallbackTriedCount symbol rest),
        List.range_succ_eq_map]

/-- When the primary and every fallback fail, `GetPrice` falls back to the
cache (strictly-under-5-minutes entries only) and leaves the state
unchanged. -/
theorem GetPrice_all_fail (pf : PriceFailover) (symbol : String) (now : Int)
    (hp : pf.primary symbol = none)
    (hf : pf.fallbacks.findSome? (fun s => s symbol) = none) :
    pf.GetPrice symbol now
      = ((match pf.cache symbol with
          | some (price, ts) => if now - ts < cacheTTL then some price else none
          | none => none), pf,
         0 :: (List.range (fallbackTriedCount symbol pf.fallbacks)).map
           (· + 1)) := by
  unfold PriceFailover.GetPrice
  rw [hp, tryFallbacks_spec symbol pf.fallbacks, hf]
  cases hc : pf.cache symbol with
  | none => rfl
  | some pr =>
    obtain ⟨p0, ts0⟩ := pr
    by_cases hlt : now - ts0 < cacheTTL
    · simp [hlt]
    · simp [hlt]

/-- C5: `PriceFailover.GetPrice` tries the primary source first (on its
success the fallbacks are untouched), only on its failure the registered
fallbacks in registration order; any success refreshes the per-symbol cache
entry with the price and the current timestamp and is returned; when every
source fails, the state is unchanged and the cached price is returned if and
only if a cache entry exists with age strictly under 5 minutes — otherwise
the price-unavailable error results. -/
theorem C5_price_failover_order_and_cache (pf : PriceFailover)
    (symbol : String) (now : Int) :
    (∀ p, pf.primary symbol = some p →
      pf.GetPrice symbol now
        = (some p, { pf with cache := cacheInsert pf.cache symbol p now },
           [0])) ∧
    (pf.primary symbol = none → ∀ p,
      pf.fallbacks.findSome? (fun s => s symbol) = some p →
      pf.GetPrice symbol now
        = (some p, { pf with cache := cacheInsert pf.cache symbol p now },
           0 :: (List.range (fallbackTriedCount symbol pf.fallbacks)).map
             (· + 1))) ∧
    (pf.primary symbol = none →
      pf.fallbacks.findSome? (fun s => s symbol) = none →
      (pf.GetPrice symbol now).2.1 = pf ∧
      (∀ p ts, pf.cache symbol = some (p, ts) → now - ts < cacheTTL →
        (pf.GetPrice symbol now).1 = some p) ∧
      (∀ p ts, pf.cache symbol = some (p, ts) → cacheTTL ≤ now - ts →
        (pf.GetPrice symbol now).1 = none) ∧
      (pf.cache symbol = none → (pf.GetPrice symbol now).1 = none)) := by
  refine ⟨?_, ?_, ?_⟩
  · intro p hp
    simp [PriceFailover.GetPrice, hp]
  · intro hp p hf
    simp only [PriceFailover.GetPrice, hp]
    rw [tryFallbacks_spec symbol pf.fallbacks, hf]
  · intro hp hf
    have hall := GetPrice_all_fail pf symbol now hp hf
    refine ⟨by rw [hall], ?_, ?_, ?_⟩
    · intro p ts heq hlt
      rw [hall]
      simp [heq, hlt]
    · intro p ts heq hge
      rw [hall]
      simp [heq, not_lt.mpr hge]
    · intro hnone
      rw [hall]
      simp [hnone]

/-- Failover whose primary succeeds at 100. -/
def pfPrimaryOk : PriceFailover :=
  { primary := fun _ => some 100, fallbacks := [fun _ => none],
    cache := fun _ => none }

/-- Failover whose primary fails; the second fallback succeeds at 42. -/
def pfFallbackOk : PriceFailover :=
  { primary := fun _ => none,
    fallbacks := [fun _ => none, fun _ => some 42],
    cache := fun _ => none }

/-- Failover with all sources failing and a cache entry (50 at time 0). -/
def pfCached : PriceFailover :=
  { primary := fun _ => none, fallbacks := [fun _ => none],
    cache := fun s => if s = "BTCUSDT" then some (50, 0) else none }

/-- Witness for C5: primary success returns 100 touching only source 0;
fallback success returns 42 after sources 0, 1, 2; with all sources failing,
the minute-old cache entry is served at `now = 60` but refused at
`now = 400` (≥ 5 minutes old). -/
theorem C5_witness :
    (pfPrimaryOk.GetPrice "BTCUSDT" 0).1 = some 100 ∧
    (pfPrimaryOk.GetPrice "BTCUSDT" 0).2.2 = [0] ∧
    (pfFallbackOk.GetPrice "BTCUSDT" 0).1 = some 42 ∧
    (pfFallbackOk.GetPrice "BTCUSDT" 0).2.2 = [0, 1, 2] ∧
    (pfCached.GetPrice "BTCUSDT" 60).1 = some 50 ∧
    (pfCached.GetPrice "BTCUSDT" 400).1 = none := by
  have h1 := (C5_price_failover_order_and_cache pfPrimaryOk "BTCUSDT" 0).1
    100 rfl
  have h2 := (C5_price_failover_order_and_cache pfFallbackOk "BTCUSDT" 0).2.1
    rfl 42 rfl
  have h3 := (C5_price_failover_order_and_cache pfCached "BTCUSDT" 60).2.2
    rfl rfl
  have h4 := (C5_price_failover_order_and_cache pfCached "BTCUSDT" 400).2.2
    rfl rfl
  refine ⟨by rw [h1], by rw [h1], by rw [h2], by rw [h2]; rfl,
    h3.2.1 50 0 rfl (by decide), h4.2.2.1 50 0 rfl (by decide)⟩

end Mark
